import Mathlib

/-!
Verification of the `daemon` service-management library (Go) against its
natural-language specification, via a shallow embedding.

The library shells out to the host init system (`systemctl`, `launchctl`,
`service`, upstart `start`/`stop`/`status`, `id -g`), probes the filesystem
for descriptor files, and renders text templates.  The embedding makes every
such external effect an explicit argument:

* the output of `id -g` is an `Option String` (`none` = the command failed);
* descriptor-file presence (`os.Stat` on the service path) is a `Bool`;
* each fallible native command or file operation is an `Option String`
  (`some msg` = it failed with that underlying error message);
* the output of the native status command is an `Option String`;
* `exec.LookPath`/`os.Stat`/`os.Executable` inside the path resolver are an
  `Option String`, a `Bool` and an `Except String String`.

Operations return plain records carrying the human-readable message, the
machine-checkable error, the descriptor-file state afterwards, the rendered
file content, and traces of the attempted side effects (native commands /
runlevel symlinks), so that best-effort and ordering properties are statable.

Go regular expressions used by the status parsers are all of the shape
"literal", or "literal prefix, then a captured digit run, then a literal
suffix"; they are embedded as substring search plus digit-run capture, which
coincides with RE2 leftmost-first matching for such patterns (service names
are treated as regex-literal strings, i.e. containing no metacharacters).
-/

set_option autoImplicit false

/-- Machine-checkable errors of the library (`helper.go` top-level `errors.New`
values), plus `ioError` for underlying I/O / subprocess errors that the code
passes through unchanged. -/
inductive DaemonError where
  | unsupportedSystem
  | rootPrivileges
  | alreadyInstalled
  | notInstalled
  | alreadyRunning
  | alreadyStopped
  | ioError (msg : String)
deriving DecidableEq

/-- The `ServiceProperties` record: name, description, startup arguments and
dependency names (immutable after construction). -/
structure ServiceProperties where
  name : String
  description : String
  arguments : List String
  dependencies : List String
deriving DecidableEq

/-- The colored "OK" suffix constant from `helper.go`. -/
def success : String := "\t\t\t\t\t[  \x1b[32mOK\x1b[0m  ]"

/-- The colored "FAILED" suffix constant from `helper.go`. -/
def failed : String := "\t\t\t\t\t[\x1b[31mFAILED\x1b[0m]"

/-- `strings.Join xs " "`. -/
def joinSpace : List String → String
  | [] => ""
  | [a] => a
  | a :: rest => a ++ " " ++ joinSpace rest

/-- Characters trimmed by Go's `strings.TrimSpace` (the ones that can occur in
`id -g` output; Unicode space characters beyond Latin-1 do not arise there). -/
def isGoSpace (c : Char) : Bool :=
  c = ' ' || c = '\t' || c = '\n' || c = Char.ofNat 11 || c = Char.ofNat 12 ||
  c = '\r' || c = Char.ofNat 133 || c = Char.ofNat 160

/-- `strings.TrimSpace`. -/
def trimSpace (s : String) : String :=
  ⟨((s.data.dropWhile isGoSpace).reverse.dropWhile isGoSpace).reverse⟩

/-- `strconv.ParseUint s 10 32`: a nonempty all-decimal-digit string whose
value fits in 32 bits; anything else is a parse error (`none`). -/
def parseUint32 (s : String) : Option Nat :=
  if s.data = [] then none
  else if s.data.all (fun c => c.isDigit) then
    let v := s.data.foldl (fun a c => a * 10 + (c.toNat - 48)) 0
    if v < 2 ^ 32 then some v else none
  else none

/-- `checkPrivileges` from `helper.go`: run `id -g`; on success parse the
trimmed output as a 32-bit unsigned integer; gid 0 passes, a nonzero gid is
`ErrRootPrivileges`, and a failed command or unparsable output is
`ErrUnsupportedSystem`.  `idOutput` is the result of `exec.Command("id","-g")`
(`none` = the command returned an error). -/
def checkPrivileges (idOutput : Option String) : Bool × Option DaemonError :=
  match idOutput with
  | some output =>
    match parseUint32 (trimSpace output) with
    | some gid =>
      if gid = 0 then (true, none) else (false, some DaemonError.rootPrivileges)
    | none => (false, some DaemonError.unsupportedSystem)
  | none => (false, some DaemonError.unsupportedSystem)

/-- `executablePath` from `helper.go`.  `lookPath` is the result of
`exec.LookPath properties.name` (`none` = error), `statOk` whether `os.Stat`
on that path succeeded, and `osExe` the result of `os.Executable()`.
Mirrors the Go control flow: `err` is non-nil at the final check only when
`os.Executable` was consulted and failed. -/
def executablePath (properties : ServiceProperties) (lookPath : Option String)
    (statOk : Bool) (osExe : Except String String) : Except String String :=
  let foundPath : String :=
    match lookPath with
    | some path => if statOk then path else ""
    | none => ""
  if foundPath = "" then
    match osExe with
    | .error e => .error e
    | .ok fp =>
      if fp ≠ "" ∧ 0 < properties.arguments.length then
        .ok (fp ++ " " ++ joinSpace properties.arguments)
      else .ok ""
  else
    if foundPath ≠ "" ∧ 0 < properties.arguments.length then
      .ok (foundPath ++ " " ++ joinSpace properties.arguments)
    else .ok ""

/-- Does the first list occur at the head of the second? -/
def isPrefixL : List Char → List Char → Bool
  | [], _ => true
  | _ :: _, [] => false
  | a :: as, b :: bs => a = b && isPrefixL as bs

/-- Does `needle` occur anywhere in `hay`?  Embeds `regexp.MatchString` for a
pattern that is a literal string (no metacharacters). -/
def containsChars (needle : List Char) : List Char → Bool
  | [] => isPrefixL needle []
  | c :: rest => isPrefixL needle (c :: rest) || containsChars needle rest

/-- String form of `containsChars`. -/
def containsStr (needle hay : String) : Bool :=
  containsChars needle.data hay.data

/-- Try to match `pre ++ digits⁺ ++ post` at the head of `s`, returning the
captured digit run (greedy, as RE2 matches `pre([0-9]+)post`). -/
def captureAt (pre post s : List Char) : Option (List Char) :=
  if isPrefixL pre s then
    let r := s.drop pre.length
    let ds := r.takeWhile Char.isDigit
    if ds ≠ [] ∧ isPrefixL post (r.drop ds.length) then some ds else none
  else none

/-- Leftmost match of `pre ++ digits⁺ ++ post` in `s`, returning the captured
digit run.  Embeds `regexp.FindStringSubmatch` for the pid-extraction regexes
("pid  ([0-9]+)", "Main PID: ([0-9]+)", "process ([0-9]+)",
"PID\" = ([0-9]+);"), whose shape is exactly literal/digit-group/literal. -/
def findCapture (pre post : List Char) : List Char → Option (List Char)
  | [] => captureAt pre post []
  | c :: rest =>
    match captureAt pre post (c :: rest) with
    | some ds => some ds
    | none => findCapture pre post rest

/-- String form of `findCapture`. -/
def findCaptureS (pre post s : String) : Option String :=
  (findCapture pre.data post.data s.data).map (fun ds => ⟨ds⟩)

/-- `SystemdService.checkRunning`: parse the output of
`systemctl status <name>.service`.  `output` is `none` when the command
returned an error. -/
def SystemdService.checkRunning (svc : ServiceProperties)
    (output : Option String) : String × Bool :=
  match output with
  | some out =>
    if containsStr "Active: active" out then
      match findCaptureS "Main PID: " "" out with
      | some p => ("Service (pid  " ++ p ++ ") is running...", true)
      | none => ("Service is running...", true)
    else ("Service is stopped", false)
  | none => ("Service is stopped", false)

/-- `UpstartService.checkRunning`: parse the output of `status <name>`.
The presence pattern is `<name> start/running`, the pid pattern
`process ([0-9]+)`. -/
def UpstartService.checkRunning (svc : ServiceProperties)
    (output : Option String) : String × Bool :=
  match output with
  | some out =>
    if containsStr (svc.name ++ " start/running") out then
      match findCaptureS "process " "" out with
      | some p => ("Service (pid  " ++ p ++ ") is running...", true)
      | none => ("Service is running...", true)
    else ("Service is stopped", false)
  | none => ("Service is stopped", false)

/-- `SystemvService.checkRunning`: parse the output of
`service <name> status`.  The presence pattern is the service name itself,
the pid pattern `pid  ([0-9]+)` (two spaces). -/
def SystemvService.checkRunning (svc : ServiceProperties)
    (output : Option String) : String × Bool :=
  match output with
  | some out =>
    if containsStr svc.name out then
      match findCaptureS "pid  " "" out with
      | some p => ("Service (pid  " ++ p ++ ") is running...", true)
      | none => ("Service is running...", true)
    else ("Service is stopped", false)
  | none => ("Service is stopped", false)

/-- `DarwinService.checkRunning`: parse the output of
`launchctl list <name>`.  The presence pattern is the service name,
the pid pattern `PID" = ([0-9]+);`. -/
def DarwinService.checkRunning (svc : ServiceProperties)
    (output : Option String) : String × Bool :=
  match output with
  | some out =>
    if containsStr svc.name out then
      match findCaptureS "PID\" = " ";" out with
      | some p => ("Service (pid  " ++ p ++ ") is running...", true)
      | none => ("Service is running...", true)
    else ("Service is stopped", false)
  | none => ("Service is stopped", false)

/-- The BSD rc.d backend's `checkRunning` (the `DaemonService` half of
`helper.go`): parse the output of `service <name> <status-cmd>` with the
same presence/pid patterns as the SysV backend. -/
def DaemonService.checkRunning (svc : ServiceProperties)
    (output : Option String) : String × Bool :=
  match output with
  | some out =>
    if containsStr svc.name out then
      match findCaptureS "pid  " "" out with
      | some p => ("Service (pid  " ++ p ++ ") is running...", true)
      | none => ("Service is running...", true)
    else ("Service is stopped", false)
  | none => ("Service is stopped", false)

/-- First line of `data` containing `lit`, else "": embeds
`regexp.Compile(".*" ++ lit ++ ".*").Find` over multi-line text, where `lit`
is a literal pattern — `.` does not cross newlines, so the leftmost match is
the whole first line containing the literal. -/
def findLineContaining (lit data : String) : String :=
  match (data.data.splitOn '\n').find? (fun l => containsChars lit.data l) with
  | some l => ⟨l⟩
  | none => ""

/-- The character scan at the end of `DaemonService.isEnabled`: skip leading
spaces; the line counts as enabled iff its first non-space character is not
`#` (empty line: not enabled). -/
def scanEnabled (v : String) : Bool :=
  match v.data.dropWhile (fun c => c = ' ') with
  | [] => false
  | c :: _ => c ≠ '#'

/-- `DaemonService.isEnabled`: read `/etc/rc.conf` (`rcConf` is its content,
`none` = open error), find the line matching `<name>_enable="YES"`, and test
whether it is commented out. -/
def DaemonService.isEnabled (svc : ServiceProperties) (rcConf : Option String) :
    Bool × Option String :=
  match rcConf with
  | none => (false, some "open error")
  | some data =>
    (scanEnabled (findLineContaining (svc.name ++ "_enable=\"YES\"") data), none)

/-- `DaemonService.getCmd`: use the plain command when the service is enabled
in `/etc/rc.conf`, else the `one`-prefixed variant. -/
def DaemonService.getCmd (svc : ServiceProperties) (rcConf : Option String)
    (cmd : String) : String :=
  let en := DaemonService.isEnabled svc rcConf
  if !en.1 || en.2.isSome then "one" ++ cmd else cmd


/-- `templ.Execute` specialized to the fixed `systemDConfig` template of
`daemon_linux_systemd.go` (plain field substitution; `text/template` does no
escaping). -/
def systemDConfigRender (name description dependencies path args : String) : String :=
  "[Unit]\nDescription=" ++
  description ++
  "\nRequires=" ++
  dependencies ++
  "\nAfter=" ++
  dependencies ++
  "\n\n[Service]\nPIDFile=/var/run/" ++
  name ++
  ".pid\nExecStartPre=/bin/rm -f /var/run/" ++
  name ++
  ".pid\nExecStart=" ++
  path ++
  " " ++
  args ++
  "\nRestart=on-failure\n\n[Install]\nWantedBy=multi-user.target\n"

/-- `templ.Execute` specialized to the fixed `upstatConfig` template of
`daemon_linux_upstart.go`. -/
def upstatConfigRender (name description path args : String) : String :=
  "# " ++
  name ++
  " " ++
  description ++
  "\n\ndescription     \"" ++
  description ++
  "\"\nauthor          \"Pichu Chen <pichu@tih.tw>\"\n\nstart on runlevel [2345]\nstop on runlevel [016]\n\nrespawn\n#kill timeout 5\n\nexec " ++
  path ++
  " " ++
  args ++
  " >> /var/log/" ++
  name ++
  ".log 2>> /var/log/" ++
  name ++
  ".err\n"

/-- `templ.Execute` specialized to the fixed `systemVConfig` template of
`daemon_linux_systemv.go` (literal braces of the shell script written as
escapes). -/
def systemVConfigRender (name description path args : String) : String :=
  "#! /bin/sh\n#\n#       /etc/rc.d/init.d/" ++
  name ++
  "\n#\n#       Starts " ++
  name ++
  " as a daemon\n#\n# chkconfig: 2345 87 17\n# description: Starts and stops a single " ++
  name ++
  " instance on this system\n\n### BEGIN INIT INFO\n# Provides: " ++
  name ++
  " \n# Required-Start: $network $named\n# Required-Stop: $network $named\n# Default-Start: 2 3 4 5\n# Default-Stop: 0 1 6\n# Short-Description: This service manages the " ++
  description ++
  ".\n# Description: " ++
  description ++
  "\n### END INIT INFO\n\n#\n# Source function library.\n#\nif [ -f /etc/rc.d/init.d/functions ]; then\n    . /etc/rc.d/init.d/functions\nfi\n\nexec=\"" ++
  path ++
  "\"\nservname=\"" ++
  description ++
  "\"\n\nproc=\"" ++
  name ++
  "\"\npidfile=\"/var/run/$proc.pid\"\nlockfile=\"/var/lock/subsys/$proc\"\nstdoutlog=\"/var/log/$proc.log\"\nstderrlog=\"/var/log/$proc.err\"\n\n[ -d $(dirname $lockfile) ] || mkdir -p $(dirname $lockfile)\n\n[ -e /etc/sysconfig/$proc ] && . /etc/sysconfig/$proc\n\nstart() \x7b\n    [ -x $exec ] || exit 5\n\n    if [ -f $pidfile ]; then\n        if ! [ -d \"/proc/$(cat $pidfile)\" ]; then\n            rm $pidfile\n            if [ -f $lockfile ]; then\n                rm $lockfile\n            fi\n        fi\n    fi\n\n    if ! [ -f $pidfile ]; then\n        printf \"Starting $servname:\\t\"\n        echo \"$(date)\" >> $stdoutlog\n        $exec " ++
  args ++
  " >> $stdoutlog 2>> $stderrlog &\n        echo $! > $pidfile\n        touch $lockfile\n        success\n        echo\n    else\n        # failure\n        echo\n        printf \"$pidfile still exists...\\n\"\n        exit 7\n    fi\n\x7d\n\nstop() \x7b\n    echo -n $\"Stopping $servname: \"\n    killproc -p $pidfile $proc\n    retval=$?\n    echo\n    [ $retval -eq 0 ] && rm -f $lockfile\n    return $retval\n\x7d\n\nrestart() \x7b\n    stop\n    start\n\x7d\n\nrh_status() \x7b\n    status -p $pidfile $proc\n\x7d\n\nrh_status_q() \x7b\n    rh_status >/dev/null 2>&1\n\x7d\n\ncase \"$1\" in\n    start)\n        rh_status_q && exit 0\n        $1\n        ;;\n    stop)\n        rh_status_q || exit 0\n        $1\n        ;;\n    restart)\n        $1\n        ;;\n    status)\n        rh_status\n        ;;\n    *)\n        echo $\"Usage: $0 \x7bstart|stop|status|restart\x7d\"\n        exit 2\nesac\n\nexit $?\n"

/-- `templ.Execute` specialized to the fixed `propertyList` template of
`daemon_darwin.go`; the `range .Args` block renders one `<string>` element
per argument (the template uses only `Name`, `Path` and `Args`). -/
def propertyListRender (name path : String) (args : List String) : String :=
  "<?xml version=\"1.0\" encoding=\"UTF-8\"?>\n<!DOCTYPE plist PUBLIC \"-//Apple//DTD PLIST 1.0//EN\" \"http://www.apple.com/DTDs/PropertyList-1.0.dtd\">\n<plist version=\"1.0\">\n<dict>\n\t<key>KeepAlive</key>\n\t<true/>\n\t<key>Label</key>\n\t<string>" ++
  name ++
  "</string>\n\t<key>ProgramArguments</key>\n\t<array>\n\t    <string>" ++
  path ++
  "</string>\n\t\t" ++
  String.join (args.map (fun a => "<string>" ++ a ++ "</string>\n\t\t")) ++
  "\n\t</array>\n\t<key>RunAtLoad</key>\n\t<true/>\n    <key>WorkingDirectory</key>\n    <string>/usr/local/var</string>\n    <key>StandardErrorPath</key>\n    <string>/usr/local/var/log/" ++
  name ++
  ".err</string>\n    <key>StandardOutPath</key>\n    <string>/usr/local/var/log/" ++
  name ++
  ".log</string>\n</dict>\n</plist>\n"

/-- `templ.Execute` specialized to the fixed `bsdConfig` template of the BSD
rc.d half of `helper.go` (only `Name`, `Path` and `Args` appear in it). -/
def bsdConfigRender (name path args : String) : String :=
  "#!/bin/sh\n#\n# PROVIDE: " ++
  name ++
  "\n# REQUIRE: networking syslog\n# KEYWORD:\n\n# Add the following lines to /etc/rc.conf to enable the " ++
  name ++
  ":\n#\n# " ++
  name ++
  "_enable=\"YES\"\n#\n\n\n. /etc/rc.subr\n\nname=\"" ++
  name ++
  "\"\nrcvar=\"" ++
  name ++
  "_enable\"\ncommand=\"" ++
  path ++
  "\"\npidfile=\"/var/run/$name.pid\"\n\nstart_cmd=\"/usr/sbin/daemon -p $pidfile -f $command " ++
  args ++
  "\"\nload_rc_config $name\nrun_rc_command \"$1\"\n"

/-- A lifecycle operation's Go return pair `(string, error)`. -/
structure OpResult where
  msg : String
  err : Option DaemonError
deriving DecidableEq

/-- Result of `Install`: the return pair, whether the descriptor file exists
afterwards, the content written into it (when rendering succeeded), and the
runlevel-symlink destinations attempted (SysV only; empty elsewhere). -/
structure InstallResult where
  msg : String
  err : Option DaemonError
  fileAfter : Bool
  content : Option String
  links : List String
deriving DecidableEq

/-- Result of `Remove`: the return pair, the descriptor-file state afterwards
and the runlevel-symlink removals attempted (SysV only). -/
structure RemoveResult where
  msg : String
  err : Option DaemonError
  fileAfter : Bool
  links : List String
deriving DecidableEq

/-- Result of `Start`/`Stop`: the return pair plus the native commands the
call invoked, in order (the status probe of `checkRunning`, then the actual
control command). -/
structure CtlResult where
  msg : String
  err : Option DaemonError
  cmds : List (List String)
deriving DecidableEq

/-- `SystemdService.servicePath`. -/
def SystemdService.servicePath (svc : ServiceProperties) : String :=
  "/etc/systemd/system/" ++ svc.name ++ ".service"

/-- `UpstartService.servicePath`. -/
def UpstartService.servicePath (svc : ServiceProperties) : String :=
  "/etc/init/" ++ svc.name ++ ".conf"

/-- `SystemvService.servicePath`. -/
def SystemvService.servicePath (svc : ServiceProperties) : String :=
  "/etc/init.d/" ++ svc.name

/-- `DarwinService.servicePath`. -/
def DarwinService.servicePath (svc : ServiceProperties) : String :=
  "/Library/LaunchDaemons/" ++ svc.name ++ ".plist"

/-- The BSD rc.d `DaemonService.servicePath`. -/
def DaemonService.servicePath (svc : ServiceProperties) : String :=
  "/usr/local/etc/rc.d/" ++ svc.name

/-- `SystemdService.isInstalled`: true exactly when `os.Stat` on the service
path succeeds (`statOk`). -/
def SystemdService.isInstalled (statOk : Bool) : Bool :=
  if statOk then true else false

/-- `UpstartService.isInstalled`. -/
def UpstartService.isInstalled (statOk : Bool) : Bool :=
  if statOk then true else false

/-- `SystemvService.isInstalled`. -/
def SystemvService.isInstalled (statOk : Bool) : Bool :=
  if statOk then true else false

/-- `DarwinService.isInstalled`. -/
def DarwinService.isInstalled (statOk : Bool) : Bool :=
  if statOk then true else false

/-- The BSD rc.d `DaemonService.isInstalled`. -/
def DaemonService.isInstalled (statOk : Bool) : Bool :=
  if statOk then true else false

/-- The start-runlevel symlinks `/etc/rc{2,3,4,5}.d/S87<name>` the SysV
backend creates and removes. -/
def SystemvService.startLinks (svc : ServiceProperties) : List String :=
  ["2", "3", "4", "5"].map (fun i => "/etc/rc" ++ i ++ ".d/S87" ++ svc.name)

/-- The kill-runlevel symlinks `/etc/rc{0,1,6}.d/K17<name>` the SysV backend
creates and removes. -/
def SystemvService.killLinks (svc : ServiceProperties) : List String :=
  ["0", "1", "6"].map (fun i => "/etc/rc" ++ i ++ ".d/K17" ++ svc.name)

/-- `SystemdService.Install`: privilege gate, already-installed check,
`os.Create`, `executablePath`, `template.Parse`, `templ.Execute`,
`systemctl daemon-reload`, `systemctl enable` — each failure returned in
order; `parseErr`/`renderErr`/`reloadErr`/`enableErr` are the oracles for
those steps. -/
def SystemdService.Install (svc : ServiceProperties) (idOutput : Option String)
    (fileExists : Bool) (createErr : Option String) (lookPath : Option String)
    (lookStatOk : Bool) (osExe : Except String String)
    (parseErr renderErr reloadErr enableErr : Option String)
    (args : List String) : InstallResult :=
  let installAction := "Install " ++ svc.description ++ ":"
  let pr := checkPrivileges idOutput
  if !pr.1 then ⟨installAction ++ failed, pr.2, fileExists, none, []⟩
  else if fileExists then
    ⟨installAction ++ failed, some DaemonError.alreadyInstalled, fileExists, none, []⟩
  else
    match createErr with
    | some m => ⟨installAction ++ failed, some (DaemonError.ioError m), false, none, []⟩
    | none =>
      match executablePath svc lookPath lookStatOk osExe with
      | .error m => ⟨installAction ++ failed, some (DaemonError.ioError m), true, none, []⟩
      | .ok execPatch =>
        match parseErr with
        | some m => ⟨installAction ++ failed, some (DaemonError.ioError m), true, none, []⟩
        | none =>
          match renderErr with
          | some m => ⟨installAction ++ failed, some (DaemonError.ioError m), true, none, []⟩
          | none =>
            let content := systemDConfigRender svc.name svc.description
              (joinSpace svc.dependencies) execPatch (joinSpace args)
            match reloadErr with
            | some m =>
              ⟨installAction ++ failed, some (DaemonError.ioError m), true, some content, []⟩
            | none =>
              match enableErr with
              | some m =>
                ⟨installAction ++ failed, some (DaemonError.ioError m), true, some content, []⟩
              | none => ⟨installAction ++ success, none, true, some content, []⟩

/-- `UpstartService.Install`: privilege gate, already-installed check,
`os.Create`, `executablePath`, `template.Parse`, `templ.Execute`,
`os.Chmod 0755`; no native registration step. -/
def UpstartService.Install (svc : ServiceProperties) (idOutput : Option String)
    (fileExists : Bool) (createErr : Option String) (lookPath : Option String)
    (lookStatOk : Bool) (osExe : Except String String)
    (parseErr renderErr chmodErr : Option String)
    (args : List String) : InstallResult :=
  let installAction := "Install " ++ svc.description ++ ":"
  let pr := checkPrivileges idOutput
  if !pr.1 then ⟨installAction ++ failed, pr.2, fileExists, none, []⟩
  else if fileExists then
    ⟨installAction ++ failed, some DaemonError.alreadyInstalled, fileExists, none, []⟩
  else
    match createErr with
    | some m => ⟨installAction ++ failed, some (DaemonError.ioError m), false, none, []⟩
    | none =>
      match executablePath svc lookPath lookStatOk osExe with
      | .error m => ⟨installAction ++ failed, some (DaemonError.ioError m), true, none, []⟩
      | .ok execPatch =>
        match parseErr with
        | some m => ⟨installAction ++ failed, some (DaemonError.ioError m), true, none, []⟩
        | none =>
          match renderErr with
          | some m => ⟨installAction ++ failed, some (DaemonError.ioError m), true, none, []⟩
          | none =>
            let content := upstatConfigRender svc.name svc.description
              execPatch (joinSpace args)
            match chmodErr with
            | some m =>
              ⟨installAction ++ failed, some (DaemonError.ioError m), true, some content, []⟩
            | none => ⟨installAction ++ success, none, true, some content, []⟩

/-- `SystemvService.Install`: as for upstart, then the two runlevel-symlink
loops; a failing `os.Symlink` is skipped with `continue`, so `slErr` (the
per-destination symlink error oracle) never affects the result, and all
seven destinations are attempted. -/
def SystemvService.Install (svc : ServiceProperties) (idOutput : Option String)
    (fileExists : Bool) (createErr : Option String) (lookPath : Option String)
    (lookStatOk : Bool) (osExe : Except String String)
    (parseErr renderErr chmodErr : Option String)
    (slErr : String → Option String)
    (args : List String) : InstallResult :=
  let installAction := "Install " ++ svc.description ++ ":"
  let pr := checkPrivileges idOutput
  if !pr.1 then ⟨installAction ++ failed, pr.2, fileExists, none, []⟩
  else if fileExists then
    ⟨installAction ++ failed, some DaemonError.alreadyInstalled, fileExists, none, []⟩
  else
    match createErr with
    | some m => ⟨installAction ++ failed, some (DaemonError.ioError m), false, none, []⟩
    | none =>
      match executablePath svc lookPath lookStatOk osExe with
      | .error m => ⟨installAction ++ failed, some (DaemonError.ioError m), true, none, []⟩
      | .ok execPatch =>
        match parseErr with
        | some m => ⟨installAction ++ failed, some (DaemonError.ioError m), true, none, []⟩
        | none =>
          match renderErr with
          | some m => ⟨installAction ++ failed, some (DaemonError.ioError m), true, none, []⟩
          | none =>
            let content := systemVConfigRender svc.name svc.description
              execPatch (joinSpace args)
            match chmodErr with
            | some m =>
              ⟨installAction ++ failed, some (DaemonError.ioError m), true, some content, []⟩
            | none =>
              let links := (SystemvService.startLinks svc).map (fun l => (l, slErr l)) ++
                (SystemvService.killLinks svc).map (fun l => (l, slErr l))
              ⟨installAction ++ success, none, true, some content, links.map (fun x => x.1)⟩

/-- `DarwinService.Install`: privilege gate, already-installed check,
`os.Create`, `executablePath`, `template.Parse`, `templ.Execute`;
no chmod and no native registration step. -/
def DarwinService.Install (svc : ServiceProperties) (idOutput : Option String)
    (fileExists : Bool) (createErr : Option String) (lookPath : Option String)
    (lookStatOk : Bool) (osExe : Except String String)
    (parseErr renderErr : Option String)
    (args : List String) : InstallResult :=
  let installAction := "Install " ++ svc.description ++ ":"
  let pr := checkPrivileges idOutput
  if !pr.1 then ⟨installAction ++ failed, pr.2, fileExists, none, []⟩
  else if fileExists then
    ⟨installAction ++ failed, some DaemonError.alreadyInstalled, fileExists, none, []⟩
  else
    match createErr with
    | some m => ⟨installAction ++ failed, some (DaemonError.ioError m), false, none, []⟩
    | none =>
      match executablePath svc lookPath lookStatOk osExe with
      | .error m => ⟨installAction ++ failed, some (DaemonError.ioError m), true, none, []⟩
      | .ok execPatch =>
        match parseErr with
        | some m => ⟨installAction ++ failed, some (DaemonError.ioError m), true, none, []⟩
        | none =>
          match renderErr with
          | some m => ⟨installAction ++ failed, some (DaemonError.ioError m), true, none, []⟩
          | none =>
            ⟨installAction ++ success, none, true,
              some (propertyListRender svc.name execPatch args), []⟩

/-- The BSD rc.d `DaemonService.Install`: privilege gate, already-installed
check, `os.Create`, `executablePath`, `template.Parse`, `templ.Execute`,
`os.Chmod 0755`. -/
def DaemonService.Install (svc : ServiceProperties) (idOutput : Option String)
    (fileExists : Bool) (createErr : Option String) (lookPath : Option String)
    (lookStatOk : Bool) (osExe : Except String String)
    (parseErr renderErr chmodErr : Option String)
    (args : List String) : InstallResult :=
  let installAction := "Install " ++ svc.description ++ ":"
  let pr := checkPrivileges idOutput
  if !pr.1 then ⟨installAction ++ failed, pr.2, fileExists, none, []⟩
  else if fileExists then
    ⟨installAction ++ failed, some DaemonError.alreadyInstalled, fileExists, none, []⟩
  else
    match createErr with
    | some m => ⟨installAction ++ failed, some (DaemonError.ioError m), false, none, []⟩
    | none =>
      match executablePath svc lookPath lookStatOk osExe with
      | .error m => ⟨installAction ++ failed, some (DaemonError.ioError m), true, none, []⟩
      | .ok execPatch =>
        match parseErr with
        | some m => ⟨installAction ++ failed, some (DaemonError.ioError m), true, none, []⟩
        | none =>
          match renderErr with
          | some m => ⟨installAction ++ failed, some (DaemonError.ioError m), true, none, []⟩
          | none =>
            let content := bsdConfigRender svc.name execPatch (joinSpace args)
            match chmodErr with
            | some m =>
              ⟨installAction ++ failed, some (DaemonError.ioError m), true, some content, []⟩
            | none => ⟨installAction ++ success, none, true, some content, []⟩

/-- `SystemdService.Remove`: privilege gate, installed check, `systemctl
disable` (its failure is returned), then `os.Remove` of the unit file. -/
def SystemdService.Remove (svc : ServiceProperties) (idOutput : Option String)
    (fileExists : Bool) (disableErr removeErr : Option String) : RemoveResult :=
  let removeAction := "Removing " ++ svc.description ++ ":"
  let pr := checkPrivileges idOutput
  if !pr.1 then ⟨removeAction ++ failed, pr.2, fileExists, []⟩
  else if !fileExists then
    ⟨removeAction ++ failed, some DaemonError.notInstalled, fileExists, []⟩
  else
    match disableErr with
    | some m => ⟨removeAction ++ failed, some (DaemonError.ioError m), fileExists, []⟩
    | none =>
      match removeErr with
      | some m => ⟨removeAction ++ failed, some (DaemonError.ioError m), fileExists, []⟩
      | none => ⟨removeAction ++ success, none, false, []⟩

/-- `UpstartService.Remove`: privilege gate, installed check, `os.Remove`. -/
def UpstartService.Remove (svc : ServiceProperties) (idOutput : Option String)
    (fileExists : Bool) (removeErr : Option String) : RemoveResult :=
  let removeAction := "Removing " ++ svc.description ++ ":"
  let pr := checkPrivileges idOutput
  if !pr.1 then ⟨removeAction ++ failed, pr.2, fileExists, []⟩
  else if !fileExists then
    ⟨removeAction ++ failed, some DaemonError.notInstalled, fileExists, []⟩
  else
    match removeErr with
    | some m => ⟨removeAction ++ failed, some (DaemonError.ioError m), fileExists, []⟩
    | none => ⟨removeAction ++ success, none, false, []⟩

/-- `SystemvService.Remove`: privilege gate, installed check, `os.Remove` of
the init script, then the two runlevel-symlink removal loops; a failing
`os.Remove` on a symlink is skipped with `continue`, so `ulErr` never
affects the result and all seven destinations are attempted. -/
def SystemvService.Remove (svc : ServiceProperties) (idOutput : Option String)
    (fileExists : Bool) (removeErr : Option String)
    (ulErr : String → Option String) : RemoveResult :=
  let removeAction := "Removing " ++ svc.description ++ ":"
  let pr := checkPrivileges idOutput
  if !pr.1 then ⟨removeAction ++ failed, pr.2, fileExists, []⟩
  else if !fileExists then
    ⟨removeAction ++ failed, some DaemonError.notInstalled, fileExists, []⟩
  else
    match removeErr with
    | some m => ⟨removeAction ++ failed, some (DaemonError.ioError m), fileExists, []⟩
    | none =>
      let links := (SystemvService.startLinks svc).map (fun l => (l, ulErr l)) ++
        (SystemvService.killLinks svc).map (fun l => (l, ulErr l))
      ⟨removeAction ++ success, none, false, links.map (fun x => x.1)⟩

/-- `DarwinService.Remove`: privilege gate, installed check, `os.Remove`. -/
def DarwinService.Remove (svc : ServiceProperties) (idOutput : Option String)
    (fileExists : Bool) (removeErr : Option String) : RemoveResult :=
  let removeAction := "Removing " ++ svc.description ++ ":"
  let pr := checkPrivileges idOutput
  if !pr.1 then ⟨removeAction ++ failed, pr.2, fileExists, []⟩
  else if !fileExists then
    ⟨removeAction ++ failed, some DaemonError.notInstalled, fileExists, []⟩
  else
    match removeErr with
    | some m => ⟨removeAction ++ failed, some (DaemonError.ioError m), fileExists, []⟩
    | none => ⟨removeAction ++ success, none, false, []⟩

/-- The BSD rc.d `DaemonService.Remove`: privilege gate, installed check,
`os.Remove`. -/
def DaemonService.Remove (svc : ServiceProperties) (idOutput : Option String)
    (fileExists : Bool) (removeErr : Option String) : RemoveResult :=
  let removeAction := "Removing " ++ svc.description ++ ":"
  let pr := checkPrivileges idOutput
  if !pr.1 then ⟨removeAction ++ failed, pr.2, fileExists, []⟩
  else if !fileExists then
    ⟨removeAction ++ failed, some DaemonError.notInstalled, fileExists, []⟩
  else
    match removeErr with
    | some m => ⟨removeAction ++ failed, some (DaemonError.ioError m), fileExists, []⟩
    | none => ⟨removeAction ++ success, none, false, []⟩

/-- `SystemdService.Start`: privilege gate, installed check, `checkRunning`
probe (already-running check), then `systemctl start`, whose error is
surfaced verbatim. -/
def SystemdService.Start (svc : ServiceProperties) (idOutput : Option String)
    (fileExists : Bool) (statusOutput : Option String)
    (startErr : Option String) : CtlResult :=
  let startAction := "Starting " ++ svc.description ++ ":"
  let pr := checkPrivileges idOutput
  if !pr.1 then ⟨startAction ++ failed, pr.2, []⟩
  else if !fileExists then ⟨startAction ++ failed, some DaemonError.notInstalled, []⟩
  else
    let probe := ["systemctl", "status", svc.name ++ ".service"]
    if (SystemdService.checkRunning svc statusOutput).2 then
      ⟨startAction ++ failed, some DaemonError.alreadyRunning, [probe]⟩
    else
      let ctl := ["systemctl", "start", svc.name ++ ".service"]
      match startErr with
      | some m => ⟨startAction ++ failed, some (DaemonError.ioError m), [probe, ctl]⟩
      | none => ⟨startAction ++ success, none, [probe, ctl]⟩

/-- `UpstartService.Start`: as for systemd, with commands `status <name>` and
`start <name>`. -/
def UpstartService.Start (svc : ServiceProperties) (idOutput : Option String)
    (fileExists : Bool) (statusOutput : Option String)
    (startErr : Option String) : CtlResult :=
  let startAction := "Starting " ++ svc.description ++ ":"
  let pr := checkPrivileges idOutput
  if !pr.1 then ⟨startAction ++ failed, pr.2, []⟩
  else if !fileExists then ⟨startAction ++ failed, some DaemonError.notInstalled, []⟩
  else
    let probe := ["status", svc.name]
    if (UpstartService.checkRunning svc statusOutput).2 then
      ⟨startAction ++ failed, some DaemonError.alreadyRunning, [probe]⟩
    else
      let ctl := ["start", svc.name]
      match startErr with
      | some m => ⟨startAction ++ failed, some (DaemonError.ioError m), [probe, ctl]⟩
      | none => ⟨startAction ++ success, none, [probe, ctl]⟩

/-- `SystemvService.Start`: commands `service <name> status` and
`service <name> start`. -/
def SystemvService.Start (svc : ServiceProperties) (idOutput : Option String)
    (fileExists : Bool) (statusOutput : Option String)
    (startErr : Option String) : CtlResult :=
  let startAction := "Starting " ++ svc.description ++ ":"
  let pr := checkPrivileges idOutput
  if !pr.1 then ⟨startAction ++ failed, pr.2, []⟩
  else if !fileExists then ⟨startAction ++ failed, some DaemonError.notInstalled, []⟩
  else
    let probe := ["service", svc.name, "status"]
    if (SystemvService.checkRunning svc statusOutput).2 then
      ⟨startAction ++ failed, some DaemonError.alreadyRunning, [probe]⟩
    else
      let ctl := ["service", svc.name, "start"]
      match startErr with
      | some m => ⟨startAction ++ failed, some (DaemonError.ioError m), [probe, ctl]⟩
      | none => ⟨startAction ++ success, none, [probe, ctl]⟩

/-- `DarwinService.Start`: commands `launchctl list <name>` and
`launchctl load <plist-path>`. -/
def DarwinService.Start (svc : ServiceProperties) (idOutput : Option String)
    (fileExists : Bool) (statusOutput : Option String)
    (startErr : Option String) : CtlResult :=
  let startAction := "Starting " ++ svc.description ++ ":"
  let pr := checkPrivileges idOutput
  if !pr.1 then ⟨startAction ++ failed, pr.2, []⟩
  else if !fileExists then ⟨startAction ++ failed, some DaemonError.notInstalled, []⟩
  else
    let probe := ["launchctl", "list", svc.name]
    if (DarwinService.checkRunning svc statusOutput).2 then
      ⟨startAction ++ failed, some DaemonError.alreadyRunning, [probe]⟩
    else
      let ctl := ["launchctl", "load", DarwinService.servicePath svc]
      match startErr with
      | some m => ⟨startAction ++ failed, some (DaemonError.ioError m), [probe, ctl]⟩
      | none => ⟨startAction ++ success, none, [probe, ctl]⟩

/-- The BSD rc.d `DaemonService.Start`: the command names pass through
`getCmd`, which consults `/etc/rc.conf` (`rcConf`). -/
def DaemonService.Start (svc : ServiceProperties) (idOutput : Option String)
    (fileExists : Bool) (rcConf : Option String) (statusOutput : Option String)
    (startErr : Option String) : CtlResult :=
  let startAction := "Starting " ++ svc.description ++ ":"
  let pr := checkPrivileges idOutput
  if !pr.1 then ⟨startAction ++ failed, pr.2, []⟩
  else if !fileExists then ⟨startAction ++ failed, some DaemonError.notInstalled, []⟩
  else
    let probe := ["service", svc.name, DaemonService.getCmd svc rcConf "status"]
    if (DaemonService.checkRunning svc statusOutput).2 then
      ⟨startAction ++ failed, some DaemonError.alreadyRunning, [probe]⟩
    else
      let ctl := ["service", svc.name, DaemonService.getCmd svc rcConf "start"]
      match startErr with
      | some m => ⟨startAction ++ failed, some (DaemonError.ioError m), [probe, ctl]⟩
      | none => ⟨startAction ++ success, none, [probe, ctl]⟩

/-- `SystemdService.Stop`: symmetric to `Start`, requiring the derived status
to be running, else `ErrAlreadyStopped`. -/
def SystemdService.Stop (svc : ServiceProperties) (idOutput : Option String)
    (fileExists : Bool) (statusOutput : Option String)
    (stopErr : Option String) : CtlResult :=
  let stopAction := "Stopping " ++ svc.description ++ ":"
  let pr := checkPrivileges idOutput
  if !pr.1 then ⟨stopAction ++ failed, pr.2, []⟩
  else if !fileExists then ⟨stopAction ++ failed, some DaemonError.notInstalled, []⟩
  else
    let probe := ["systemctl", "status", svc.name ++ ".service"]
    if !(SystemdService.checkRunning svc statusOutput).2 then
      ⟨stopAction ++ failed, some DaemonError.alreadyStopped, [probe]⟩
    else
      let ctl := ["systemctl", "stop", svc.name ++ ".service"]
      match stopErr with
      | some m => ⟨stopAction ++ failed, some (DaemonError.ioError m), [probe, ctl]⟩
      | none => ⟨stopAction ++ success, none, [probe, ctl]⟩

/-- `UpstartService.Stop`. -/
def UpstartService.Stop (svc : ServiceProperties) (idOutput : Option String)
    (fileExists : Bool) (statusOutput : Option String)
    (stopErr : Option String) : CtlResult :=
  let stopAction := "Stopping " ++ svc.description ++ ":"
  let pr := checkPrivileges idOutput
  if !pr.1 then ⟨stopAction ++ failed, pr.2, []⟩
  else if !fileExists then ⟨stopAction ++ failed, some DaemonError.notInstalled, []⟩
  else
    let probe := ["status", svc.name]
    if !(UpstartService.checkRunning svc statusOutput).2 then
      ⟨stopAction ++ failed, some DaemonError.alreadyStopped, [probe]⟩
    else
      let ctl := ["stop", svc.name]
      match stopErr with
      | some m => ⟨stopAction ++ failed, some (DaemonError.ioError m), [probe, ctl]⟩
      | none => ⟨stopAction ++ success, none, [probe, ctl]⟩

/-- `SystemvService.Stop`. -/
def SystemvService.Stop (svc : ServiceProperties) (idOutput : Option String)
    (fileExists : Bool) (statusOutput : Option String)
    (stopErr : Option String) : CtlResult :=
  let stopAction := "Stopping " ++ svc.description ++ ":"
  let pr := checkPrivileges idOutput
  if !pr.1 then ⟨stopAction ++ failed, pr.2, []⟩
  else if !fileExists then ⟨stopAction ++ failed, some DaemonError.notInstalled, []⟩
  else
    let probe := ["service", svc.name, "status"]
    if !(SystemvService.checkRunning svc statusOutput).2 then
      ⟨stopAction ++ failed, some DaemonError.alreadyStopped, [probe]⟩
    else
      let ctl := ["service", svc.name, "stop"]
      match stopErr with
      | some m => ⟨stopAction ++ failed, some (DaemonError.ioError m), [probe, ctl]⟩
      | none => ⟨stopAction ++ success, none, [probe, ctl]⟩

/-- `DarwinService.Stop`: `launchctl unload <plist-path>`. -/
def DarwinService.Stop (svc : ServiceProperties) (idOutput : Option String)
    (fileExists : Bool) (statusOutput : Option String)
    (stopErr : Option String) : CtlResult :=
  let stopAction := "Stopping " ++ svc.description ++ ":"
  let pr := checkPrivileges idOutput
  if !pr.1 then ⟨stopAction ++ failed, pr.2, []⟩
  else if !fileExists then ⟨stopAction ++ failed, some DaemonError.notInstalled, []⟩
  else
    let probe := ["launchctl", "list", svc.name]
    if !(DarwinService.checkRunning svc statusOutput).2 then
      ⟨stopAction ++ failed, some DaemonError.alreadyStopped, [probe]⟩
    else
      let ctl := ["launchctl", "unload", DarwinService.servicePath svc]
      match stopErr with
      | some m => ⟨stopAction ++ failed, some (DaemonError.ioError m), [probe, ctl]⟩
      | none => ⟨stopAction ++ success, none, [probe, ctl]⟩

/-- The BSD rc.d `DaemonService.Stop`. -/
def DaemonService.Stop (svc : ServiceProperties) (idOutput : Option String)
    (fileExists : Bool) (rcConf : Option String) (statusOutput : Option String)
    (stopErr : Option String) : CtlResult :=
  let stopAction := "Stopping " ++ svc.description ++ ":"
  let pr := checkPrivileges idOutput
  if !pr.1 then ⟨stopAction ++ failed, pr.2, []⟩
  else if !fileExists then ⟨stopAction ++ failed, some DaemonError.notInstalled, []⟩
  else
    let probe := ["service", svc.name, DaemonService.getCmd svc rcConf "status"]
    if !(DaemonService.checkRunning svc statusOutput).2 then
      ⟨stopAction ++ failed, some DaemonError.alreadyStopped, [probe]⟩
    else
      let ctl := ["service", svc.name, DaemonService.getCmd svc rcConf "stop"]
      match stopErr with
      | some m => ⟨stopAction ++ failed, some (DaemonError.ioError m), [probe, ctl]⟩
      | none => ⟨stopAction ++ success, none, [probe, ctl]⟩

/-- `SystemdService.Status`: privilege gate (returning `("", err)`), installed
check, then the `checkRunning` description with a nil error. -/
def SystemdService.Status (svc : ServiceProperties) (idOutput : Option String)
    (fileExists : Bool) (statusOutput : Option String) : OpResult :=
  let pr := checkPrivileges idOutput
  if !pr.1 then ⟨"", pr.2⟩
  else if !fileExists then ⟨"Status could not defined", some DaemonError.notInstalled⟩
  else ⟨(SystemdService.checkRunning svc statusOutput).1, none⟩

/-- `UpstartService.Status`. -/
def UpstartService.Status (svc : ServiceProperties) (idOutput : Option String)
    (fileExists : Bool) (statusOutput : Option String) : OpResult :=
  let pr := checkPrivileges idOutput
  if !pr.1 then ⟨"", pr.2⟩
  else if !fileExists then ⟨"Status could not defined", some DaemonError.notInstalled⟩
  else ⟨(UpstartService.checkRunning svc statusOutput).1, none⟩

/-- `SystemvService.Status`. -/
def SystemvService.Status (svc : ServiceProperties) (idOutput : Option String)
    (fileExists : Bool) (statusOutput : Option String) : OpResult :=
  let pr := checkPrivileges idOutput
  if !pr.1 then ⟨"", pr.2⟩
  else if !fileExists then ⟨"Status could not defined", some DaemonError.notInstalled⟩
  else ⟨(SystemvService.checkRunning svc statusOutput).1, none⟩

/-- `DarwinService.Status`. -/
def DarwinService.Status (svc : ServiceProperties) (idOutput : Option String)
    (fileExists : Bool) (statusOutput : Option String) : OpResult :=
  let pr := checkPrivileges idOutput
  if !pr.1 then ⟨"", pr.2⟩
  else if !fileExists then ⟨"Status could not defined", some DaemonError.notInstalled⟩
  else ⟨(DarwinService.checkRunning svc statusOutput).1, none⟩

/-- The BSD rc.d `DaemonService.Status`. -/
def DaemonService.Status (svc : ServiceProperties) (idOutput : Option String)
    (fileExists : Bool) (statusOutput : Option String) : OpResult :=
  let pr := checkPrivileges idOutput
  if !pr.1 then ⟨"", pr.2⟩
  else if !fileExists then ⟨"Status could not defined", some DaemonError.notInstalled⟩
  else ⟨(DaemonService.checkRunning svc statusOutput).1, none⟩

/-- The backend strategies the Linux platform selector can bind. -/
inductive LinuxBackend where
  | systemd
  | upstart
  | sysv
deriving DecidableEq

/-- `newDaemon` from `daemon_linux.go`: probe `/run/systemd/system`
(`systemdDirExists`), then `/sbin/initctl` (`initctlExists`), binding the
first marker that is present, with the SysV backend as the fallback; the
error component is always nil. -/
def newDaemon (name description : String) (arguments dependencies : List String)
    (systemdDirExists initctlExists : Bool) :
    (LinuxBackend × ServiceProperties) × Option DaemonError :=
  if systemdDirExists then
    ((LinuxBackend.systemd, ⟨name, description, arguments, dependencies⟩), none)
  else if initctlExists then
    ((LinuxBackend.upstart, ⟨name, description, arguments, dependencies⟩), none)
  else
    ((LinuxBackend.sysv, ⟨name, description, arguments, dependencies⟩), none)

/-- Classification of the strings `checkRunning` can produce: the stopped
description or one of the two running descriptions. -/
def isStatusDescription (s : String) : Prop :=
  s = "Service is stopped" ∨ s = "Service is running..." ∨
    ∃ p, s = "Service (pid  " ++ p ++ ") is running..."

/-- Helper: whenever the privilege gate reports `false`, it also reports an
error value. -/
theorem checkPrivileges_false_has_error (idOutput : Option String)
    (h : (checkPrivileges idOutput).1 = false) :
    (checkPrivileges idOutput).2.isSome = true := by
  unfold checkPrivileges at h ⊢
  cases idOutput with
  | none => rfl
  | some out =>
    cases hp : parseUint32 (trimSpace out) with
    | none => simp [hp]
    | some g =>
      simp only [hp] at h ⊢
      by_cases hg : g = 0
      · simp [hg] at h
      · simp [hg]

/-- C1: evaluating `executablePath` at a descriptor whose arguments list is
empty and whose name resolves on the search path: the code returns the empty
string (with a nil error), not the bare resolved path
`/usr/bin/myservice` that the specification describes. -/
theorem executablePath_empty_args_yields_empty_path :
    executablePath ⟨"myservice", "My Service", [], []⟩
      (some "/usr/bin/myservice") true (Except.ok "/proc/self/exe") =
      Except.ok "" ∧
    Except.ok "" ≠ Except.ok (ε := String) "/usr/bin/myservice" := by
  constructor
  · rfl
  · intro h
    exact absurd (Except.ok.inj h) (by decide)

/-- C10: the privilege gate passes exactly when `id -g` succeeded and its
trimmed output parses (as a 32-bit unsigned decimal) to 0; a nonzero parsed
gid yields the root-privileges error, and a failed command or unparsable
output yields the unsupported-system error. -/
theorem checkPrivileges_spec :
    (∀ out, checkPrivileges (some out) = (true, none) ↔
      parseUint32 (trimSpace out) = some 0) ∧
    (∀ out g, parseUint32 (trimSpace out) = some g → g ≠ 0 →
      checkPrivileges (some out) = (false, some DaemonError.rootPrivileges)) ∧
    (∀ out, parseUint32 (trimSpace out) = none →
      checkPrivileges (some out) = (false, some DaemonError.unsupportedSystem)) ∧
    checkPrivileges none = (false, some DaemonError.unsupportedSystem) := by
  refine ⟨fun out => ?_, fun out g hp hg => ?_, fun out hp => ?_, rfl⟩
  · cases hp : parseUint32 (trimSpace out) with
    | none => simp [checkPrivileges, hp]
    | some g =>
      by_cases hg : g = 0 <;> simp [checkPrivileges, hp, hg, Prod.ext_iff]
  · simp [checkPrivileges, hp, hg]
  · simp [checkPrivileges, hp]

/-- Witness for C10 at concrete `id -g` outputs. -/
theorem checkPrivileges_spec_witness :
    (parseUint32 (trimSpace "0\n") = some 0 ∧
      checkPrivileges (some "0\n") = (true, none)) ∧
    (parseUint32 (trimSpace " 1000\n") = some 1000 ∧
      checkPrivileges (some " 1000\n") = (false, some DaemonError.rootPrivileges)) ∧
    (parseUint32 (trimSpace "oops") = none ∧
      checkPrivileges (some "oops") = (false, some DaemonError.unsupportedSystem)) :=
  ⟨⟨by decide, (checkPrivileges_spec.1 "0\n").mpr (by decide)⟩,
   ⟨by decide, checkPrivileges_spec.2.1 " 1000\n" 1000 (by decide) (by decide)⟩,
   ⟨by decide, checkPrivileges_spec.2.2.1 "oops" (by decide)⟩⟩

/-- C6: the Linux platform selector binds systemd whenever the systemd
runtime-directory marker is present (in particular when the upstart marker is
present as well), binds upstart when only the upstart control-binary marker
is present, falls back to SysV when neither is, and never returns an
error. -/
theorem newDaemon_selector_priority :
    ∀ (name description : String) (arguments dependencies : List String),
      (∀ u, ((newDaemon name description arguments dependencies true u).1).1 =
        LinuxBackend.systemd) ∧
      ((newDaemon name description arguments dependencies false true).1).1 =
        LinuxBackend.upstart ∧
      ((newDaemon name description arguments dependencies false false).1).1 =
        LinuxBackend.sysv ∧
      (∀ s u, (newDaemon name description arguments dependencies s u).2 = none) := by
  intro n d a dep
  refine ⟨fun u => rfl, rfl, rfl, fun s u => ?_⟩
  cases s <;> cases u <;> rfl

/-- C8: each backend's template rendering is a deterministic function of the
name, description, dependencies, resolved path and arguments — two renderings
with identical inputs are byte-identical. -/
theorem template_rendering_deterministic :
    (∀ n₁ n₂ d₁ d₂ dep₁ dep₂ p₁ p₂ a₁ a₂ : String,
      n₁ = n₂ → d₁ = d₂ → dep₁ = dep₂ → p₁ = p₂ → a₁ = a₂ →
      systemDConfigRender n₁ d₁ dep₁ p₁ a₁ = systemDConfigRender n₂ d₂ dep₂ p₂ a₂) ∧
    (∀ n₁ n₂ d₁ d₂ p₁ p₂ a₁ a₂ : String, n₁ = n₂ → d₁ = d₂ → p₁ = p₂ → a₁ = a₂ →
      upstatConfigRender n₁ d₁ p₁ a₁ = upstatConfigRender n₂ d₂ p₂ a₂) ∧
    (∀ n₁ n₂ d₁ d₂ p₁ p₂ a₁ a₂ : String, n₁ = n₂ → d₁ = d₂ → p₁ = p₂ → a₁ = a₂ →
      systemVConfigRender n₁ d₁ p₁ a₁ = systemVConfigRender n₂ d₂ p₂ a₂) ∧
    (∀ (n₁ n₂ p₁ p₂ : String) (a₁ a₂ : List String), n₁ = n₂ → p₁ = p₂ → a₁ = a₂ →
      propertyListRender n₁ p₁ a₁ = propertyListRender n₂ p₂ a₂) ∧
    (∀ n₁ n₂ p₁ p₂ a₁ a₂ : String, n₁ = n₂ → p₁ = p₂ → a₁ = a₂ →
      bsdConfigRender n₁ p₁ a₁ = bsdConfigRender n₂ p₂ a₂) := by
  refine ⟨?_, ?_, ?_, ?_, ?_⟩ <;>
    · intros
      subst_vars
      rfl

/-- Witness for C8 at the concrete sample descriptor. -/
theorem template_rendering_deterministic_witness :
    systemDConfigRender "sampled" "Sample Daemon" "network" "/usr/bin/sampled" "--flag" =
      systemDConfigRender "sampled" "Sample Daemon" "network" "/usr/bin/sampled" "--flag" ∧
    propertyListRender "sampled" "/usr/bin/sampled" ["--flag"] =
      propertyListRender "sampled" "/usr/bin/sampled" ["--flag"] :=
  ⟨template_rendering_deterministic.1 _ _ _ _ _ _ _ _ _ _ rfl rfl rfl rfl rfl,
   template_rendering_deterministic.2.2.2.1 _ _ _ _ _ _ rfl rfl rfl⟩

/-- Helper: the systemd parser only ever produces the three description
strings. -/
theorem systemdRunningDesc (svc : ServiceProperties)
    (so : Option String) :
    isStatusDescription (SystemdService.checkRunning svc so).1 := by
  unfold SystemdService.checkRunning isStatusDescription
  cases so with
  | none => exact Or.inl rfl
  | some out =>
    dsimp only
    split
    · split
      · exact Or.inr (Or.inr ⟨_, rfl⟩)
      · exact Or.inr (Or.inl rfl)
    · exact Or.inl rfl

/-- Helper: the upstart parser only ever produces the three description
strings. -/
theorem upstartRunningDesc (svc : ServiceProperties)
    (so : Option String) :
    isStatusDescription (UpstartService.checkRunning svc so).1 := by
  unfold UpstartService.checkRunning isStatusDescription
  cases so with
  | none => exact Or.inl rfl
  | some out =>
    dsimp only
    split
    · split
      · exact Or.inr (Or.inr ⟨_, rfl⟩)
      · exact Or.inr (Or.inl rfl)
    · exact Or.inl rfl

/-- Helper: the SysV parser only ever produces the three description
strings. -/
theorem sysvRunningDesc (svc : ServiceProperties)
    (so : Option String) :
    isStatusDescription (SystemvService.checkRunning svc so).1 := by
  unfold SystemvService.checkRunning isStatusDescription
  cases so with
  | none => exact Or.inl rfl
  | some out =>
    dsimp only
    split
    · split
      · exact Or.inr (Or.inr ⟨_, rfl⟩)
      · exact Or.inr (Or.inl rfl)
    · exact Or.inl rfl

/-- Helper: the launchd parser only ever produces the three description
strings. -/
theorem darwinRunningDesc (svc : ServiceProperties)
    (so : Option String) :
    isStatusDescription (DarwinService.checkRunning svc so).1 := by
  unfold DarwinService.checkRunning isStatusDescription
  cases so with
  | none => exact Or.inl rfl
  | some out =>
    dsimp only
    split
    · split
      · exact Or.inr (Or.inr ⟨_, rfl⟩)
      · exact Or.inr (Or.inl rfl)
    · exact Or.inl rfl

/-- Helper: the BSD rc.d parser only ever produces the three description
strings. -/
theorem bsdRunningDesc (svc : ServiceProperties)
    (so : Option String) :
    isStatusDescription (DaemonService.checkRunning svc so).1 := by
  unfold DaemonService.checkRunning isStatusDescription
  cases so with
  | none => exact Or.inl rfl
  | some out =>
    dsimp only
    split
    · split
      · exact Or.inr (Or.inr ⟨_, rfl⟩)
      · exact Or.inr (Or.inl rfl)
    · exact Or.inl rfl

/-- C7: for each backend's status parser, output that matches the presence
pattern and whose leftmost pid-pattern match captures 1234 yields
running=true with pid 1234; output with no presence match yields
running=false (the stopped description carries no pid). -/
theorem status_parsers_pid_and_verdict :
    (∀ (svc : ServiceProperties) (out : String),
      containsStr "Active: active" out = true →
      findCaptureS "Main PID: " "" out = some "1234" →
      SystemdService.checkRunning svc (some out) =
        ("Service (pid  1234) is running...", true)) ∧
    (∀ (svc : ServiceProperties) (out : String),
      containsStr "Active: active" out = false →
      SystemdService.checkRunning svc (some out) = ("Service is stopped", false)) ∧
    (∀ (svc : ServiceProperties) (out : String),
      containsStr (svc.name ++ " start/running") out = true →
      findCaptureS "process " "" out = some "1234" →
      UpstartService.checkRunning svc (some out) =
        ("Service (pid  1234) is running...", true)) ∧
    (∀ (svc : ServiceProperties) (out : String),
      containsStr (svc.name ++ " start/running") out = false →
      UpstartService.checkRunning svc (some out) = ("Service is stopped", false)) ∧
    (∀ (svc : ServiceProperties) (out : String),
      containsStr svc.name out = true →
      findCaptureS "pid  " "" out = some "1234" →
      SystemvService.checkRunning svc (some out) =
        ("Service (pid  1234) is running...", true)) ∧
    (∀ (svc : ServiceProperties) (out : String),
      containsStr svc.name out = false →
      SystemvService.checkRunning svc (some out) = ("Service is stopped", false)) ∧
    (∀ (svc : ServiceProperties) (out : String),
      containsStr svc.name out = true →
      findCaptureS "PID\" = " ";" out = some "1234" →
      DarwinService.checkRunning svc (some out) =
        ("Service (pid  1234) is running...", true)) ∧
    (∀ (svc : ServiceProperties) (out : String),
      containsStr svc.name out = false →
      DarwinService.checkRunning svc (some out) = ("Service is stopped", false)) ∧
    (∀ (svc : ServiceProperties) (out : String),
      containsStr svc.name out = true →
      findCaptureS "pid  " "" out = some "1234" →
      DaemonService.checkRunning svc (some out) =
        ("Service (pid  1234) is running...", true)) ∧
    (∀ (svc : ServiceProperties) (out : String),
      containsStr svc.name out = false →
      DaemonService.checkRunning svc (some out) = ("Service is stopped", false)) := by
  refine ⟨fun svc out h1 h2 => ?_, fun svc out h1 => ?_, fun svc out h1 h2 => ?_,
    fun svc out h1 => ?_, fun svc out h1 h2 => ?_, fun svc out h1 => ?_,
    fun svc out h1 h2 => ?_, fun svc out h1 => ?_, fun svc out h1 h2 => ?_,
    fun svc out h1 => ?_⟩ <;>
  simp [SystemdService.checkRunning, UpstartService.checkRunning,
    SystemvService.checkRunning, DarwinService.checkRunning,
    DaemonService.checkRunning, *]

/-- Witness for C7 on literal captured sample outputs for each backend. -/
theorem status_parsers_pid_and_verdict_witness :
    SystemdService.checkRunning ⟨"myservice", "d", [], []⟩
      (some "Active: active (running) since Mon; Main PID: 1234 (myservice)") =
      ("Service (pid  1234) is running...", true) ∧
    SystemdService.checkRunning ⟨"myservice", "d", [], []⟩
      (some "Active: inactive (dead)") = ("Service is stopped", false) ∧
    UpstartService.checkRunning ⟨"myservice", "d", [], []⟩
      (some "myservice start/running, process 1234") =
      ("Service (pid  1234) is running...", true) ∧
    UpstartService.checkRunning ⟨"myservice", "d", [], []⟩
      (some "myservice stop/waiting") = ("Service is stopped", false) ∧
    SystemvService.checkRunning ⟨"myservice", "d", [], []⟩
      (some "myservice (pid  1234) is running...") =
      ("Service (pid  1234) is running...", true) ∧
    SystemvService.checkRunning ⟨"myservice", "d", [], []⟩
      (some "no such unit") = ("Service is stopped", false) ∧
    DarwinService.checkRunning ⟨"myservice", "d", [], []⟩
      (some "\"Label\" = \"myservice\"; \"PID\" = 1234;") =
      ("Service (pid  1234) is running...", true) ∧
    DarwinService.checkRunning ⟨"myservice", "d", [], []⟩
      (some "Could not find service") = ("Service is stopped", false) ∧
    DaemonService.checkRunning ⟨"myservice", "d", [], []⟩
      (some "myservice is running as pid  1234.") =
      ("Service (pid  1234) is running...", true) ∧
    DaemonService.checkRunning ⟨"myservice", "d", [], []⟩
      (some "nothing here") = ("Service is stopped", false) :=
  ⟨status_parsers_pid_and_verdict.1 _ _ (by decide) (by decide),
   status_parsers_pid_and_verdict.2.1 _ _ (by decide),
   status_parsers_pid_and_verdict.2.2.1 _ _ (by decide) (by decide),
   status_parsers_pid_and_verdict.2.2.2.1 _ _ (by decide),
   status_parsers_pid_and_verdict.2.2.2.2.1 _ _ (by decide) (by decide),
   status_parsers_pid_and_verdict.2.2.2.2.2.1 _ _ (by decide),
   status_parsers_pid_and_verdict.2.2.2.2.2.2.1 _ _ (by decide) (by decide),
   status_parsers_pid_and_verdict.2.2.2.2.2.2.2.1 _ _ (by decide),
   status_parsers_pid_and_verdict.2.2.2.2.2.2.2.2.1 _ _ (by decide) (by decide),
   status_parsers_pid_and_verdict.2.2.2.2.2.2.2.2.2 _ _ (by decide)⟩

/-- C5: for every backend, once the privilege gate passes and the descriptor
file is present, `Status` returns the derived Running/Stopped description
with a nil error, and a failing native status command (output `none`) is
parsed as the stopped description, never as an error. -/
theorem status_never_errors_once_installed :
    ∀ (svc : ServiceProperties) (idOutput statusOutput : Option String),
      (checkPrivileges idOutput).1 = true →
      (SystemdService.Status svc idOutput true statusOutput =
        ⟨(SystemdService.checkRunning svc statusOutput).1, none⟩ ∧
        isStatusDescription (SystemdService.checkRunning svc statusOutput).1 ∧
        (SystemdService.checkRunning svc none).1 = "Service is stopped") ∧
      (UpstartService.Status svc idOutput true statusOutput =
        ⟨(UpstartService.checkRunning svc statusOutput).1, none⟩ ∧
        isStatusDescription (UpstartService.checkRunning svc statusOutput).1 ∧
        (UpstartService.checkRunning svc none).1 = "Service is stopped") ∧
      (SystemvService.Status svc idOutput true statusOutput =
        ⟨(SystemvService.checkRunning svc statusOutput).1, none⟩ ∧
        isStatusDescription (SystemvService.checkRunning svc statusOutput).1 ∧
        (SystemvService.checkRunning svc none).1 = "Service is stopped") ∧
      (DarwinService.Status svc idOutput true statusOutput =
        ⟨(DarwinService.checkRunning svc statusOutput).1, none⟩ ∧
        isStatusDescription (DarwinService.checkRunning svc statusOutput).1 ∧
        (DarwinService.checkRunning svc none).1 = "Service is stopped") ∧
      (DaemonService.Status svc idOutput true statusOutput =
        ⟨(DaemonService.checkRunning svc statusOutput).1, none⟩ ∧
        isStatusDescription (DaemonService.checkRunning svc statusOutput).1 ∧
        (DaemonService.checkRunning svc none).1 = "Service is stopped") := by
  intro svc idOutput statusOutput h
  refine ⟨⟨?_, systemdRunningDesc svc statusOutput, rfl⟩,
    ⟨?_, upstartRunningDesc svc statusOutput, rfl⟩,
    ⟨?_, sysvRunningDesc svc statusOutput, rfl⟩,
    ⟨?_, darwinRunningDesc svc statusOutput, rfl⟩,
    ⟨?_, bsdRunningDesc svc statusOutput, rfl⟩⟩ <;>
  simp [SystemdService.Status, UpstartService.Status, SystemvService.Status,
    DarwinService.Status, DaemonService.Status, h]

/-- Witness for C5: a root caller, an installed service, and a failing native
status command. -/
theorem status_never_errors_once_installed_witness :
    (checkPrivileges (some "0\n")).1 = true ∧
    (SystemdService.Status ⟨"app", "App", [], []⟩ (some "0\n") true none =
      ⟨(SystemdService.checkRunning ⟨"app", "App", [], []⟩ none).1, none⟩ ∧
      isStatusDescription (SystemdService.checkRunning ⟨"app", "App", [], []⟩ none).1 ∧
      (SystemdService.checkRunning (⟨"app", "App", [], []⟩ : ServiceProperties) none).1 =
        "Service is stopped") :=
  ⟨by decide, (status_never_errors_once_installed ⟨"app", "App", [], []⟩
    (some "0\n") none (by decide)).1⟩

/-- C3: for every backend and every lifecycle operation, when the privilege
gate reports non-administrative rights the operation returns the gate's
error (which is always present), regardless of installed state, runtime
status or any other oracle — the gate is checked before any other
precondition. -/
theorem privilege_gate_checked_first :
    ∀ (svc : ServiceProperties) (idOutput : Option String) (fe : Bool)
      (ce lp : Option String) (lso : Bool) (oe : Except String String)
      (pe re che rle ene de rme sterr stperr so rcc : Option String)
      (sl ul : String → Option String) (args : List String),
      (checkPrivileges idOutput).1 = false →
      (checkPrivileges idOutput).2.isSome = true ∧
      (SystemdService.Install svc idOutput fe ce lp lso oe pe re rle ene args).err =
        (checkPrivileges idOutput).2 ∧
      (UpstartService.Install svc idOutput fe ce lp lso oe pe re che args).err =
        (checkPrivileges idOutput).2 ∧
      (SystemvService.Install svc idOutput fe ce lp lso oe pe re che sl args).err =
        (checkPrivileges idOutput).2 ∧
      (DarwinService.Install svc idOutput fe ce lp lso oe pe re args).err =
        (checkPrivileges idOutput).2 ∧
      (DaemonService.Install svc idOutput fe ce lp lso oe pe re che args).err =
        (checkPrivileges idOutput).2 ∧
      (SystemdService.Remove svc idOutput fe de rme).err = (checkPrivileges idOutput).2 ∧
      (UpstartService.Remove svc idOutput fe rme).err = (checkPrivileges idOutput).2 ∧
      (SystemvService.Remove svc idOutput fe rme ul).err = (checkPrivileges idOutput).2 ∧
      (DarwinService.Remove svc idOutput fe rme).err = (checkPrivileges idOutput).2 ∧
      (DaemonService.Remove svc idOutput fe rme).err = (checkPrivileges idOutput).2 ∧
      (SystemdService.Start svc idOutput fe so sterr).err = (checkPrivileges idOutput).2 ∧
      (UpstartService.Start svc idOutput fe so sterr).err = (checkPrivileges idOutput).2 ∧
      (SystemvService.Start svc idOutput fe so sterr).err = (checkPrivileges idOutput).2 ∧
      (DarwinService.Start svc idOutput fe so sterr).err = (checkPrivileges idOutput).2 ∧
      (DaemonService.Start svc idOutput fe rcc so sterr).err = (checkPrivileges idOutput).2 ∧
      (SystemdService.Stop svc idOutput fe so stperr).err = (checkPrivileges idOutput).2 ∧
      (UpstartService.Stop svc idOutput fe so stperr).err = (checkPrivileges idOutput).2 ∧
      (SystemvService.Stop svc idOutput fe so stperr).err = (checkPrivileges idOutput).2 ∧
      (DarwinService.Stop svc idOutput fe so stperr).err = (checkPrivileges idOutput).2 ∧
      (DaemonService.Stop svc idOutput fe rcc so stperr).err = (checkPrivileges idOutput).2 ∧
      (SystemdService.Status svc idOutput fe so).err = (checkPrivileges idOutput).2 ∧
      (UpstartService.Status svc idOutput fe so).err = (checkPrivileges idOutput).2 ∧
      (SystemvService.Status svc idOutput fe so).err = (checkPrivileges idOutput).2 ∧
      (DarwinService.Status svc idOutput fe so).err = (checkPrivileges idOutput).2 ∧
      (DaemonService.Status svc idOutput fe so).err = (checkPrivileges idOutput).2 := by
  intro svc idOutput fe ce lp lso oe pe re che rle ene de rme sterr stperr so rcc
    sl ul args h
  refine ⟨checkPrivileges_false_has_error idOutput h, ?_, ?_, ?_, ?_, ?_, ?_, ?_,
    ?_, ?_, ?_, ?_, ?_, ?_, ?_, ?_, ?_, ?_, ?_, ?_, ?_, ?_, ?_, ?_, ?_, ?_⟩ <;>
  simp [SystemdService.Install, UpstartService.Install, SystemvService.Install,
    DarwinService.Install, DaemonService.Install, SystemdService.Remove,
    UpstartService.Remove, SystemvService.Remove, DarwinService.Remove,
    DaemonService.Remove, SystemdService.Start, UpstartService.Start,
    SystemvService.Start, DarwinService.Start, DaemonService.Start,
    SystemdService.Stop, UpstartService.Stop, SystemvService.Stop,
    DarwinService.Stop, DaemonService.Stop, SystemdService.Status,
    UpstartService.Status, SystemvService.Status, DarwinService.Status,
    DaemonService.Status, h]

/-- Witness for C3: a non-root caller (gid 1000) on an installed, running
service. -/
theorem privilege_gate_checked_first_witness :
    (checkPrivileges (some "1000\n")).1 = false ∧
    ((checkPrivileges (some "1000\n")).2.isSome = true ∧
      (SystemdService.Install ⟨"app", "App", [], []⟩ (some "1000\n") true none none
        false (Except.ok "") none none none none []).err =
        (checkPrivileges (some "1000\n")).2) :=
  ⟨by decide,
   (privilege_gate_checked_first ⟨"app", "App", [], []⟩ (some "1000\n") true none none
      false (Except.ok "") none none none none none none none none none none none
      (fun _ => none) (fun _ => none) [] (by decide)).1,
   (privilege_gate_checked_first ⟨"app", "App", [], []⟩ (some "1000\n") true none none
      false (Except.ok "") none none none none none none none none none none none
      (fun _ => none) (fun _ => none) [] (by decide)).2.1⟩

/-- C4: for every backend, with the privilege gate passing, `Start` fails
with `ErrNotInstalled` when the descriptor file is absent, fails with
`ErrAlreadyRunning` when the derived status is running (after the single
status probe), and otherwise invokes the native start command exactly once,
returning success when it succeeds and surfacing its error verbatim (as the
pass-through `ioError`) when it fails — no retry: the command trace holds
exactly one start invocation. -/
theorem start_preconditions_single_invocation :
    ∀ (svc : ServiceProperties) (idOutput so sterr rcc : Option String),
      (checkPrivileges idOutput).1 = true →
      (SystemdService.Start svc idOutput false so sterr =
        ⟨"Starting " ++ svc.description ++ ":" ++ failed, some DaemonError.notInstalled, []⟩ ∧
        ((SystemdService.checkRunning svc so).2 = true →
          SystemdService.Start svc idOutput true so sterr =
            ⟨"Starting " ++ svc.description ++ ":" ++ failed, some DaemonError.alreadyRunning,
              [["systemctl", "status", svc.name ++ ".service"]]⟩) ∧
        ((SystemdService.checkRunning svc so).2 = false →
          (∀ m, sterr = some m →
            SystemdService.Start svc idOutput true so sterr =
              ⟨"Starting " ++ svc.description ++ ":" ++ failed, some (DaemonError.ioError m),
                [["systemctl", "status", svc.name ++ ".service"],
                 ["systemctl", "start", svc.name ++ ".service"]]⟩) ∧
          (sterr = none →
            SystemdService.Start svc idOutput true so sterr =
              ⟨"Starting " ++ svc.description ++ ":" ++ success, none,
                [["systemctl", "status", svc.name ++ ".service"],
                 ["systemctl", "start", svc.name ++ ".service"]]⟩))) ∧
      (UpstartService.Start svc idOutput false so sterr =
        ⟨"Starting " ++ svc.description ++ ":" ++ failed, some DaemonError.notInstalled, []⟩ ∧
        ((UpstartService.checkRunning svc so).2 = true →
          UpstartService.Start svc idOutput true so sterr =
            ⟨"Starting " ++ svc.description ++ ":" ++ failed, some DaemonError.alreadyRunning,
              [["status", svc.name]]⟩) ∧
        ((UpstartService.checkRunning svc so).2 = false →
          (∀ m, sterr = some m →
            UpstartService.Start svc idOutput true so sterr =
              ⟨"Starting " ++ svc.description ++ ":" ++ failed, some (DaemonError.ioError m),
                [["status", svc.name], ["start", svc.name]]⟩) ∧
          (sterr = none →
            UpstartService.Start svc idOutput true so sterr =
              ⟨"Starting " ++ svc.description ++ ":" ++ success, none,
                [["status", svc.name], ["start", svc.name]]⟩))) ∧
      (SystemvService.Start svc idOutput false so sterr =
        ⟨"Starting " ++ svc.description ++ ":" ++ failed, some DaemonError.notInstalled, []⟩ ∧
        ((SystemvService.checkRunning svc so).2 = true →
          SystemvService.Start svc idOutput true so sterr =
            ⟨"Starting " ++ svc.description ++ ":" ++ failed, some DaemonError.alreadyRunning,
              [["service", svc.name, "status"]]⟩) ∧
        ((SystemvService.checkRunning svc so).2 = false →
          (∀ m, sterr = some m →
            SystemvService.Start svc idOutput true so sterr =
              ⟨"Starting " ++ svc.description ++ ":" ++ failed, some (DaemonError.ioError m),
                [["service", svc.name, "status"], ["service", svc.name, "start"]]⟩) ∧
          (sterr = none →
            SystemvService.Start svc idOutput true so sterr =
              ⟨"Starting " ++ svc.description ++ ":" ++ success, none,
                [["service", svc.name, "status"], ["service", svc.name, "start"]]⟩))) ∧
      (DarwinService.Start svc idOutput false so sterr =
        ⟨"Starting " ++ svc.description ++ ":" ++ failed, some DaemonError.notInstalled, []⟩ ∧
        ((DarwinService.checkRunning svc so).2 = true →
          DarwinService.Start svc idOutput true so sterr =
            ⟨"Starting " ++ svc.description ++ ":" ++ failed, some DaemonError.alreadyRunning,
              [["launchctl", "list", svc.name]]⟩) ∧
        ((DarwinService.checkRunning svc so).2 = false →
          (∀ m, sterr = some m →
            DarwinService.Start svc idOutput true so sterr =
              ⟨"Starting " ++ svc.description ++ ":" ++ failed, some (DaemonError.ioError m),
                [["launchctl", "list", svc.name],
                 ["launchctl", "load", DarwinService.servicePath svc]]⟩) ∧
          (sterr = none →
            DarwinService.Start svc idOutput true so sterr =
              ⟨"Starting " ++ svc.description ++ ":" ++ success, none,
                [["launchctl", "list", svc.name],
                 ["launchctl", "load", DarwinService.servicePath svc]]⟩))) ∧
      (DaemonService.Start svc idOutput false rcc so sterr =
        ⟨"Starting " ++ svc.description ++ ":" ++ failed, some DaemonError.notInstalled, []⟩ ∧
        ((DaemonService.checkRunning svc so).2 = true →
          DaemonService.Start svc idOutput true rcc so sterr =
            ⟨"Starting " ++ svc.description ++ ":" ++ failed, some DaemonError.alreadyRunning,
              [["service", svc.name, DaemonService.getCmd svc rcc "status"]]⟩) ∧
        ((DaemonService.checkRunning svc so).2 = false →
          (∀ m, sterr = some m →
            DaemonService.Start svc idOutput true rcc so sterr =
              ⟨"Starting " ++ svc.description ++ ":" ++ failed, some (DaemonError.ioError m),
                [["service", svc.name, DaemonService.getCmd svc rcc "status"],
                 ["service", svc.name, DaemonService.getCmd svc rcc "start"]]⟩) ∧
          (sterr = none →
            DaemonService.Start svc idOutput true rcc so sterr =
              ⟨"Starting " ++ svc.description ++ ":" ++ success, none,
                [["service", svc.name, DaemonService.getCmd svc rcc "status"],
                 ["service", svc.name, DaemonService.getCmd svc rcc "start"]]⟩))) := by
  intro svc idOutput so sterr rcc h
  refine ⟨⟨?_, fun hr => ?_, fun hr => ⟨fun m hm => ?_, fun hm => ?_⟩⟩,
    ⟨?_, fun hr => ?_, fun hr => ⟨fun m hm => ?_, fun hm => ?_⟩⟩,
    ⟨?_, fun hr => ?_, fun hr => ⟨fun m hm => ?_, fun hm => ?_⟩⟩,
    ⟨?_, fun hr => ?_, fun hr => ⟨fun m hm => ?_, fun hm => ?_⟩⟩,
    ⟨?_, fun hr => ?_, fun hr => ⟨fun m hm => ?_, fun hm => ?_⟩⟩⟩ <;>
  simp [SystemdService.Start, UpstartService.Start, SystemvService.Start,
    DarwinService.Start, DaemonService.Start, h, *]

/-- Witness for C4: root caller, descriptor absent, then present with a
stopped status and a succeeding native start. -/
theorem start_preconditions_single_invocation_witness :
    (checkPrivileges (some "0\n")).1 = true ∧
    SystemdService.Start ⟨"app", "App", [], []⟩ (some "0\n") false none none =
      ⟨"Starting " ++ "App" ++ ":" ++ failed, some DaemonError.notInstalled, []⟩ :=
  ⟨by decide,
   (start_preconditions_single_invocation ⟨"app", "App", [], []⟩ (some "0\n") none none
      none (by decide)).1.1⟩

/-- C2 counterexample: in the systemd backend, with root privileges and the
unit installed, a failing `systemctl disable` during `Remove` makes the whole
call return that error (and the descriptor file is not deleted), even though
the descriptor-file delete itself did not fail — refuting the claim that in
every backend only the primary descriptor-file operation is fatal. -/
theorem side_effect_swallowing_refuted :
    (SystemdService.Remove ⟨"app", "App", [], []⟩ (some "0\n") true
      (some "disable failed") none).err = some (DaemonError.ioError "disable failed") ∧
    (SystemdService.Remove ⟨"app", "App", [], []⟩ (some "0\n") true
      (some "disable failed") none).fileAfter = true := by
  constructor <;> rfl

/-- C2 amended: the best-effort policy holds for the SysV backend's runlevel
symlink loops — during `Install` and `Remove` every symlink failure is
swallowed, all seven destinations are still attempted, and the call
succeeds — whereas in the systemd backend the registration side effects are
fatal: a failing `systemctl enable` during `Install` or `systemctl disable`
during `Remove` aborts the call with that error. -/
theorem side_effect_policy_amended :
    ∀ (svc : ServiceProperties) (idOutput : Option String)
      (sl ul : String → Option String) (args : List String) (m : String),
      (checkPrivileges idOutput).1 = true →
      ((SystemvService.Install svc idOutput false none (some "/x") true
          (Except.ok "") none none none sl args).err = none ∧
        (SystemvService.Install svc idOutput false none (some "/x") true
          (Except.ok "") none none none sl args).links =
          SystemvService.startLinks svc ++ SystemvService.killLinks svc) ∧
      ((SystemvService.Remove svc idOutput true none ul).err = none ∧
        (SystemvService.Remove svc idOutput true none ul).links =
          SystemvService.startLinks svc ++ SystemvService.killLinks svc) ∧
      (SystemdService.Remove svc idOutput true (some m) none).err =
        some (DaemonError.ioError m) ∧
      (SystemdService.Install svc idOutput false none (some "/x") true
        (Except.ok "") none none none (some m) args).err =
        some (DaemonError.ioError m) := by
  intro svc idOutput sl ul args m h
  have hep : ∀ oe : Except String String, ∃ s,
      executablePath svc (some "/x") true oe = Except.ok s := by
    intro oe
    unfold executablePath
    simp only [String.reduceEq, reduceIte]
    split <;> exact ⟨_, rfl⟩
  obtain ⟨s, hs⟩ := hep (Except.ok "")
  refine ⟨⟨?_, ?_⟩, ⟨?_, ?_⟩, ?_, ?_⟩ <;>
  simp [SystemvService.Install, SystemvService.Remove, SystemdService.Remove,
    SystemdService.Install, SystemvService.startLinks, SystemvService.killLinks,
    h, hs]

/-- Witness for C2 amended: root caller, every symlink operation failing, and
a failing enable/disable. -/
theorem side_effect_policy_amended_witness :
    (checkPrivileges (some "0\n")).1 = true ∧
    ((SystemvService.Install ⟨"app", "App", [], []⟩ (some "0\n") false none
        (some "/x") true (Except.ok "") none none none
        (fun _ => some "link failed") []).err = none ∧
      (SystemvService.Install ⟨"app", "App", [], []⟩ (some "0\n") false none
        (some "/x") true (Except.ok "") none none none
        (fun _ => some "link failed") []).links =
        SystemvService.startLinks ⟨"app", "App", [], []⟩ ++
          SystemvService.killLinks ⟨"app", "App", [], []⟩) :=
  ⟨by decide,
   (side_effect_policy_amended ⟨"app", "App", [], []⟩ (some "0\n")
      (fun _ => some "link failed") (fun _ => some "link failed") [] "boom"
      (by decide)).1⟩

/-- C9: for every backend, once `Install` has passed the privilege and
already-installed checks and `os.Create` has succeeded, the descriptor file
exists afterwards no matter which later step failed ( the claim's situation
`.err = some e` included ), the service is then observed as installed, and a
retried `Install` — with any oracles — fails with `ErrAlreadyInstalled`. -/
theorem install_not_atomic_on_error :
    ∀ (svc : ServiceProperties) (idOutput idOutput2 lp : Option String) (lso : Bool)
      (oe : Except String String) (pe re che rle ene : Option String)
      (ce2 lp2 : Option String) (lso2 : Bool) (oe2 : Except String String)
      (pe2 re2 che2 rle2 ene2 : Option String) (sl sl2 : String → Option String)
      (args args2 : List String) (e : DaemonError),
      (checkPrivileges idOutput).1 = true →
      (checkPrivileges idOutput2).1 = true →
      ((SystemdService.Install svc idOutput false none lp lso oe pe re rle ene args).err =
          some e →
        (SystemdService.Install svc idOutput false none lp lso oe pe re rle ene args).fileAfter =
          true ∧
        SystemdService.isInstalled
          (SystemdService.Install svc idOutput false none lp lso oe pe re rle ene
            args).fileAfter = true ∧
        (SystemdService.Install svc idOutput2 true ce2 lp2 lso2 oe2 pe2 re2 rle2 ene2
          args2).err = some DaemonError.alreadyInstalled) ∧
      ((UpstartService.Install svc idOutput false none lp lso oe pe re che args).err =
          some e →
        (UpstartService.Install svc idOutput false none lp lso oe pe re che args).fileAfter =
          true ∧
        UpstartService.isInstalled
          (UpstartService.Install svc idOutput false none lp lso oe pe re che
            args).fileAfter = true ∧
        (UpstartService.Install svc idOutput2 true ce2 lp2 lso2 oe2 pe2 re2 che2
          args2).err = some DaemonError.alreadyInstalled) ∧
      ((SystemvService.Install svc idOutput false none lp lso oe pe re che sl args).err =
          some e →
        (SystemvService.Install svc idOutput false none lp lso oe pe re che sl
          args).fileAfter = true ∧
        SystemvService.isInstalled
          (SystemvService.Install svc idOutput false none lp lso oe pe re che sl
            args).fileAfter = true ∧
        (SystemvService.Install svc idOutput2 true ce2 lp2 lso2 oe2 pe2 re2 che2 sl2
          args2).err = some DaemonError.alreadyInstalled) ∧
      ((DarwinService.Install svc idOutput false none lp lso oe pe re args).err = some e →
        (DarwinService.Install svc idOutput false none lp lso oe pe re args).fileAfter =
          true ∧
        DarwinService.isInstalled
          (DarwinService.Install svc idOutput false none lp lso oe pe re args).fileAfter =
          true ∧
        (DarwinService.Install svc idOutput2 true ce2 lp2 lso2 oe2 pe2 re2 args2).err =
          some DaemonError.alreadyInstalled) ∧
      ((DaemonService.Install svc idOutput false none lp lso oe pe re che args).err =
          some e →
        (DaemonService.Install svc idOutput false none lp lso oe pe re che args).fileAfter =
          true ∧
        DaemonService.isInstalled
          (DaemonService.Install svc idOutput false none lp lso oe pe re che
            args).fileAfter = true ∧
        (DaemonService.Install svc idOutput2 true ce2 lp2 lso2 oe2 pe2 re2 che2
          args2).err = some DaemonError.alreadyInstalled) := by
  intro svc idOutput idOutput2 lp lso oe pe re che rle ene ce2 lp2 lso2 oe2 pe2 re2
    che2 rle2 ene2 sl sl2 args args2 e h1 h2
  have hd : (SystemdService.Install svc idOutput false none lp lso oe pe re rle ene
      args).fileAfter = true := by
    simp only [SystemdService.Install, h1]
    simp only [Bool.not_true, Bool.false_eq_true, if_false]
    repeat' split
    all_goals rfl
  have hu : (UpstartService.Install svc idOutput false none lp lso oe pe re che
      args).fileAfter = true := by
    simp only [UpstartService.Install, h1]
    simp only [Bool.not_true, Bool.false_eq_true, if_false]
    repeat' split
    all_goals rfl
  have hv : (SystemvService.Install svc idOutput false none lp lso oe pe re che sl
      args).fileAfter = true := by
    simp only [SystemvService.Install, h1]
    simp only [Bool.not_true, Bool.false_eq_true, if_false]
    repeat' split
    all_goals rfl
  have hw : (DarwinService.Install svc idOutput false none lp lso oe pe re
      args).fileAfter = true := by
    simp only [DarwinService.Install, h1]
    simp only [Bool.not_true, Bool.false_eq_true, if_false]
    repeat' split
    all_goals rfl
  have hb : (DaemonService.Install svc idOutput false none lp lso oe pe re che
      args).fileAfter = true := by
    simp only [DaemonService.Install, h1]
    simp only [Bool.not_true, Bool.false_eq_true, if_false]
    repeat' split
    all_goals rfl
  refine ⟨fun _ => ⟨hd, ?_, ?_⟩, fun _ => ⟨hu, ?_, ?_⟩, fun _ => ⟨hv, ?_, ?_⟩,
    fun _ => ⟨hw, ?_, ?_⟩, fun _ => ⟨hb, ?_, ?_⟩⟩
  · simp [SystemdService.isInstalled, hd]
  · simp [SystemdService.Install, h2]
  · simp [UpstartService.isInstalled, hu]
  · simp [UpstartService.Install, h2]
  · simp [SystemvService.isInstalled, hv]
  · simp [SystemvService.Install, h2]
  · simp [DarwinService.isInstalled, hw]
  · simp [DarwinService.Install, h2]
  · simp [DaemonService.isInstalled, hb]
  · simp [DaemonService.Install, h2]

/-- Witness for C9: root caller, name resolving to `/usr/bin/app`, a failing
`systemctl enable` as the later step. -/
theorem install_not_atomic_on_error_witness :
    (checkPrivileges (some "0\n")).1 = true ∧
    (SystemdService.Install ⟨"app", "App", [], []⟩ (some "0\n") false none
      (some "/usr/bin/app") true (Except.ok "") none none none (some "boom") []).err =
      some (DaemonError.ioError "boom") ∧
    (SystemdService.Install ⟨"app", "App", [], []⟩ (some "0\n") false none
      (some "/usr/bin/app") true (Except.ok "") none none none (some "boom")
      []).fileAfter = true ∧
    (SystemdService.Install ⟨"app", "App", [], []⟩ (some "0\n") true none
      (some "/usr/bin/app") true (Except.ok "") none none none none []).err =
      some DaemonError.alreadyInstalled :=
  ⟨by decide, by decide,
   ((install_not_atomic_on_error ⟨"app", "App", [], []⟩ (some "0\n") (some "0\n")
      (some "/usr/bin/app") true (Except.ok "") none none none none (some "boom")
      none (some "/usr/bin/app") true (Except.ok "") none none none none none
      (fun _ => none) (fun _ => none) [] [] (DaemonError.ioError "boom")
      (by decide) (by decide)).1 (by decide)).1,
   ((install_not_atomic_on_error ⟨"app", "App", [], []⟩ (some "0\n") (some "0\n")
      (some "/usr/bin/app") true (Except.ok "") none none none none (some "boom")
      none (some "/usr/bin/app") true (Except.ok "") none none none none none
      (fun _ => none) (fun _ => none) [] [] (DaemonError.ioError "boom")
      (by decide) (by decide)).1 (by decide)).2.2⟩
